import Mathlib

/-!
Verification of the props-driven composition contract of the blog repository
(React/Redux text-field examples).

JavaScript objects are modelled as structures carrying an allocation
identifier `ref : Nat`; two objects are reference-equal exactly when their
structures are equal (in particular their `ref` fields coincide).  A call to
`Object.assign(\x7b\x7d, ...)` allocates a fresh object, modelled by passing a
fresh identifier explicitly.  Callback functions are modelled by an opaque
identity type `Handler`, since only handler identity (not behaviour) matters
to the rendered trees.
-/

namespace BlogSpec

/-- Identity of a JavaScript callback.  `external n` is an arbitrary
caller-supplied function, `trackerHandler` is the bound `this.onChange` of
`RememberValueComponent`, and `connectedOnChange` is the `onChange`
dispatcher produced by `mapDispatchToProps` in `connected-text-field.js`. -/
inductive Handler where
  | external : Nat → Handler
  | trackerHandler : Handler
  | connectedOnChange : Handler
deriving DecidableEq, Repr

/-- A rendered display tree (the virtual-DOM output of the components).
`input h v` is `<input onChange=\x7bh\x7d value=\x7bv\x7d />`; an absent attribute is
`none` (JSX `undefined`). -/
inductive Node where
  | div : List Node → Node
  | label : Option String → Node
  | input : Option Handler → Option String → Node
  | text : String → Node

/-- The props record (Input Record) of the text-field components.  The fields
`pre` and `post` model the source's `prefix` / `postfix` props (renamed
because those words are reserved in Lean).  An absent prop is `none`. -/
structure Props where
  labelText : Option String
  onChange : Option Handler
  value : Option String
  pre : Option Node
  post : Option Node

/-- `PresentationalTextField.defaultProps`: only `labelText` has a default
(`'Text Field'`); the other props are deliberately left without defaults. -/
def applyDefaultProps (props : Props) : Props :=
  { props with labelText := some (props.labelText.getD "Text Field") }

/-- The JSX body of `PresentationalTextField`: a `div` containing the label,
the `prefix` slot (if present), the input bound to `onChange`/`value`, and
the `postfix` slot (if present).  React renders `\x7bundefined\x7d` as nothing,
modelled by `Option.toList`. -/
def renderTextField (props : Props) : Node :=
  Node.div
    ([Node.label props.labelText]
      ++ props.pre.toList
      ++ [Node.input props.onChange props.value]
      ++ props.post.toList)

/-- `PresentationalTextField` from `presentational-text-field.jsx`:
React fills `defaultProps` into the incoming props before rendering. -/
def PresentationalTextField (props : Props) : Node :=
  renderTextField (applyDefaultProps props)

/-- The fixed `prefix` sub-tree `<div>$</div>` of
`CompositionalMoneyTextField`. -/
def moneyPre : Node := Node.div [Node.text "$"]

/-- The fixed `postfix` sub-tree `<div>clear</div>` of
`CompositionalMoneyTextField`. -/
def moneyPost : Node := Node.div [Node.text "clear"]

/-- `CompositionalMoneyTextField` from
`archived/src/compositional-money-text-field.jsx`:
`<TextField \x7b...props\x7d prefix=\x7b<div>$</div>\x7d postfix=\x7b<div>clear</div>\x7d />`.
The spread comes first, so the explicit `prefix`/`postfix` attributes
override any caller-supplied ones. -/
def CompositionalMoneyTextField (props : Props) : Node :=
  PresentationalTextField
    { props with pre := some moneyPre, post := some moneyPost }

/-- An action as dispatched to the reducers: a tagged record with a `type`
tag and a string `payload`.  (The reducer reads `payload` only in its
recognised case; all payloads appearing in this repository are strings.) -/
structure Action where
  type : String
  payload : String
deriving DecidableEq, Repr

/-- The text-field feature state `\x7b value \x7d`, with its allocation
identifier. -/
structure TextFieldState where
  ref : Nat
  value : String
deriving DecidableEq, Repr

/-- `initialState` of `reducers/text-field.js`: `\x7b value: 'asdf' \x7d`
(allocated once at module load; we give it identifier `0`). -/
def initialState : TextFieldState :=
  { ref := 0, value := "asdf" }

/-- `updateValue(state, value)` of `reducers/text-field.js`: if
`state.value === value` return `state` itself, otherwise return
`Object.assign(\x7b\x7d, state, \x7b value \x7d)` — a fresh object, modelled by the
explicit fresh identifier `fresh`. -/
def updateValue (state : TextFieldState) (value : String) (fresh : Nat) :
    TextFieldState :=
  if state.value = value then state
  else { ref := fresh, value := value }

/-- `textFieldReducer(state = initialState, action)`: a `switch` on
`action.type` recognising only `'UPDATE_TEXT_FIELD'`; the default case
returns the state unchanged.  The `state = initialState` default parameter
is modelled by an `Option` argument. -/
def textFieldReducer (state : Option TextFieldState) (action : Action)
    (fresh : Nat) : TextFieldState :=
  let s := state.getD initialState
  if action.type = "UPDATE_TEXT_FIELD" then updateValue s action.payload fresh
  else s

/-- The container state produced by `combineReducers(\x7b textField:
textFieldReducer \x7d)` (store/reducers/index.js): an object with exactly the
one registered feature key, plus its allocation identifier. -/
structure RootState where
  ref : Nat
  textField : TextFieldState
deriving DecidableEq, Repr

/-- Feature lookup in a container state: the container built by
`combineReducers` carries exactly the key `"textField"`; every other key is
absent. -/
def featureLookup (state : RootState) (key : String) :
    Option TextFieldState :=
  if key = "textField" then some state.textField else none

/-- The combined root reducer `combineReducers(\x7b textField: textFieldReducer
\x7d)` applied to this repository's single registry entry: each registered key
is mapped through its reducer; if every sub-state is reference-equal to the
previous one the previous container object itself is returned, otherwise a
fresh container object is allocated. -/
def rootReducer (state : Option RootState) (action : Action)
    (freshFeature freshRoot : Nat) : RootState :=
  match state with
  | none =>
      { ref := freshRoot,
        textField := textFieldReducer none action freshFeature }
  | some s =>
      let next := textFieldReducer (some s.textField) action freshFeature
      if next = s.textField then s
      else { ref := freshRoot, textField := next }

/-- The local state of `RememberValueComponent`
(`higher-order-component-remember-value.jsx`): `this.state = \x7b value \x7d`. -/
structure RememberValueState where
  value : String
deriving DecidableEq, Repr

/-- The constructor of `RememberValueComponent` sets
`this.state = \x7b value: '' \x7d`. -/
def rememberInitialState : RememberValueState :=
  { value := "" }

/-- A DOM change event, of which the component reads `event.target.value`. -/
structure ChangeEvent where
  targetValue : String
deriving DecidableEq, Repr

/-- `RememberValueComponent.onChange(event)`:
`this.setState(\x7b value: event.target.value \x7d)`. -/
def rememberOnChange (_state : RememberValueState) (event : ChangeEvent) :
    RememberValueState :=
  { value := event.targetValue }

/-- `RememberValueComponent.render()` computes the props handed to the
wrapped component:
`<Component \x7b...this.props\x7d onChange=\x7bthis.onChange\x7d value=\x7bthis.state.value\x7d />`
— the spread comes first, so the component's own bound handler and state
value override any caller-supplied `onChange`/`value`. -/
def rememberValueRender (callerProps : Props) (state : RememberValueState) :
    Props :=
  { callerProps with
      onChange := some Handler.trackerHandler,
      value := some state.value }

/-- `mapStateToProps` of `connected-text-field.js`
(`archived/src/server-text-field.jsx` lines 85-89): the props contributed
from the container state are `\x7b value: state.textField.value \x7d`. -/
def mapStateToPropsValue (state : RootState) : String :=
  state.textField.value

/-- The props a `connect(mapStateToProps, mapDispatchToProps)`-bound
`TextField` receives: own props spread first, then the state-derived
`value`, then the dispatch-derived `onChange`. -/
def connectedTextFieldProps (ownProps : Props) (state : RootState) : Props :=
  { ownProps with
      value := some (mapStateToPropsValue state),
      onChange := some Handler.connectedOnChange }

/-- A props record with every slot absent, used for concrete instances. -/
def emptyProps : Props :=
  { labelText := none, onChange := none, value := none,
    pre := none, post := none }

/-- C1 (counterexample): the text-field reducer does not recognise the tag
`"UPDATE_VALUE"`.  From the state `\x7b value: 'asdf' \x7d`, dispatching
`\x7b type: 'UPDATE_VALUE', payload: 'zz' \x7d` falls through to the `default`
case: the value stays `"asdf"` and does not become `"zz"`. -/
theorem c1_update_value_tag_counterexample :
    (textFieldReducer (some { ref := 1, value := "asdf" })
        { type := "UPDATE_VALUE", payload := "zz" } 2).value = "asdf" ∧
    ¬ (textFieldReducer (some { ref := 1, value := "asdf" })
        { type := "UPDATE_VALUE", payload := "zz" } 2).value = "zz" := by
  constructor <;> decide

/-- C1 (amended): processing an Update Action tagged
`\x7b type: "UPDATE_TEXT_FIELD", payload: newValue \x7d` through the text-field
reducer, starting from any state whose value differs from `newValue`,
yields a state whose value equals `newValue`. -/
theorem c1_update_text_field_updates_value (s : TextFieldState) (v : String)
    (fresh : Nat) (h : s.value ≠ v) :
    (textFieldReducer (some s)
        { type := "UPDATE_TEXT_FIELD", payload := v } fresh).value = v := by
  simp [textFieldReducer, updateValue, h]

/-- Witness for C1's amended theorem at the concrete state
`\x7b value: 'asdf' \x7d` and payload `'zz'`. -/
theorem c1_update_text_field_updates_value_witness :
    (textFieldReducer (some { ref := 1, value := "asdf" })
        { type := "UPDATE_TEXT_FIELD", payload := "zz" } 2).value = "zz" :=
  c1_update_text_field_updates_value { ref := 1, value := "asdf" } "zz" 2
    (by decide)

/-- C2: when the dispatched value equals the current one, `updateValue`
returns the previous state object itself — the very same object (same
allocation identifier), not a structurally equal copy (the copy branch
would carry the fresh identifier). -/
theorem c2_same_value_returns_same_object (s : TextFieldState) (v : String)
    (fresh : Nat) (h : s.value = v) :
    updateValue s v fresh = s := by
  simp [updateValue, h]

/-- Witness for C2 at the concrete state `\x7b value: 'asdf' \x7d`. -/
theorem c2_same_value_returns_same_object_witness :
    updateValue { ref := 4, value := "asdf" } "asdf" 9 =
      { ref := 4, value := "asdf" } :=
  c2_same_value_returns_same_object { ref := 4, value := "asdf" } "asdf" 9
    (by decide)

/-- C3: for every props record — including ones that themselves carry
`prefix`/`postfix` slots — `CompositionalMoneyTextField` renders exactly the
tree with the Decorator's fixed `<div>$</div>` and `<div>clear</div>` in the
prefix and postfix positions; the caller-supplied slots never appear (the
output does not depend on them at all). -/
theorem c3_decorator_fixed_slots_win (p : Props) :
    CompositionalMoneyTextField p =
      Node.div [Node.label (some (p.labelText.getD "Text Field")), moneyPre,
        Node.input p.onChange p.value, moneyPost] := by
  simp [CompositionalMoneyTextField, PresentationalTextField,
    applyDefaultProps, renderTextField]

/-- C4: a Value Tracker starts with `currentValue = ""`; on a change event
carrying `newValue` (in particular `"abc"`), `currentValue` becomes
`newValue`, and the next render hands the wrapped component
`value = newValue` and `onChange =` the tracker's own bound handler. -/
theorem c4_tracker_change_updates_value :
    rememberInitialState.value = "" ∧
    ∀ (p : Props) (s : RememberValueState) (e : ChangeEvent),
      (rememberOnChange s e).value = e.targetValue ∧
      (rememberValueRender p (rememberOnChange s e)).value =
        some e.targetValue ∧
      (rememberValueRender p (rememberOnChange s e)).onChange =
        some Handler.trackerHandler := by
  exact ⟨rfl, fun p s e => ⟨rfl, rfl, rfl⟩⟩

/-- C5: the Store Binder's `mapStateToProps` always projects
`state.textField.value` into the bound renderer's `value` slot; in
particular for the container state `\x7b textField: \x7b value: 'asdf' \x7d \x7d` the
slot equals `"asdf"`. -/
theorem c5_bound_value_slot (own : Props) (state : RootState) :
    (connectedTextFieldProps own state).value =
      some state.textField.value ∧
    (connectedTextFieldProps own
        { ref := 5, textField := { ref := 6, value := "asdf" } }).value =
      some "asdf" :=
  ⟨rfl, rfl⟩

/-- C6: for every props record, the Base Renderer produces a `div`
containing, in order: a label whose text is the `labelText` slot (or the
default `"Text Field"` when the slot is absent), the prefix slot, the input
bound to `onChange` and `value`, and the postfix slot. -/
theorem c6_base_renderer_structure (p : Props) :
    PresentationalTextField p =
      Node.div ([Node.label (some (p.labelText.getD "Text Field"))]
        ++ p.pre.toList
        ++ [Node.input p.onChange p.value]
        ++ p.post.toList) :=
  rfl

/-- C7: when an optional prefix/postfix slot is absent, the Base Renderer's
output contains no sub-element for it: the corresponding position in the
children list is simply empty. -/
theorem c7_absent_slots_omitted (p : Props) :
    (p.pre = none →
      PresentationalTextField p =
        Node.div ([Node.label (some (p.labelText.getD "Text Field"))]
          ++ [Node.input p.onChange p.value]
          ++ p.post.toList)) ∧
    (p.post = none →
      PresentationalTextField p =
        Node.div ([Node.label (some (p.labelText.getD "Text Field"))]
          ++ p.pre.toList
          ++ [Node.input p.onChange p.value])) := by
  constructor
  · intro h
    simp [PresentationalTextField, applyDefaultProps, renderTextField, h]
  · intro h
    simp [PresentationalTextField, applyDefaultProps, renderTextField, h]

/-- Witness for C7: a props record with every optional slot absent renders
to exactly a label and an input, with no prefix or postfix sub-element. -/
theorem c7_absent_slots_omitted_witness :
    PresentationalTextField emptyProps =
      Node.div [Node.label (some "Text Field"), Node.input none none] := by
  have h := (c7_absent_slots_omitted emptyProps).1 rfl
  simpa [emptyProps] using h

/-- C8: dispatching `UPDATE_TEXT_FIELD` with a value that differs from the
current one makes the root reducer return a fresh container object (new
allocation identifiers at both levels — nothing is mutated in place, the
old objects keep their identifiers) whose `textField` sub-state carries the
new value, while every feature key other than `textField` is bound exactly
as before (structural sharing; this container registers only the
`textField` feature). -/
theorem c8_update_structural_sharing (s : RootState) (v : String)
    (freshFeature freshRoot : Nat) (k : String)
    (hv : s.textField.value ≠ v) (hf : freshFeature ≠ s.textField.ref)
    (hr : freshRoot ≠ s.ref) (hk : k ≠ "textField") :
    (rootReducer (some s) { type := "UPDATE_TEXT_FIELD", payload := v }
        freshFeature freshRoot).textField.value = v ∧
    (rootReducer (some s) { type := "UPDATE_TEXT_FIELD", payload := v }
        freshFeature freshRoot).textField.ref ≠ s.textField.ref ∧
    (rootReducer (some s) { type := "UPDATE_TEXT_FIELD", payload := v }
        freshFeature freshRoot).ref ≠ s.ref ∧
    featureLookup
      (rootReducer (some s) { type := "UPDATE_TEXT_FIELD", payload := v }
        freshFeature freshRoot) k = featureLookup s k := by
  have hnext :
      textFieldReducer (some s.textField)
          { type := "UPDATE_TEXT_FIELD", payload := v } freshFeature =
        { ref := freshFeature, value := v } := by
    simp [textFieldReducer, updateValue, hv]
  have hne :
      ({ ref := freshFeature, value := v } : TextFieldState) ≠
        s.textField := by
    intro hEq
    exact hf (congrArg TextFieldState.ref hEq)
  refine ⟨?_, ?_, ?_, ?_⟩
  · simp [rootReducer, hnext, hne]
  · simp [rootReducer, hnext, hne]
    exact hf
  · simp [rootReducer, hnext, hne]
    exact hr
  · simp [rootReducer, hnext, hne, featureLookup, hk]

/-- Witness for C8 at the initial container `\x7b textField: \x7b value: 'asdf' \x7d
\x7d`, payload `'hello'`, fresh identifiers `1`/`2`, and the absent sibling
key `"other"`. -/
theorem c8_update_structural_sharing_witness :
    (rootReducer (some { ref := 0, textField := { ref := 0, value := "asdf" } })
        { type := "UPDATE_TEXT_FIELD", payload := "hello" }
        1 2).textField.value = "hello" ∧
    (rootReducer (some { ref := 0, textField := { ref := 0, value := "asdf" } })
        { type := "UPDATE_TEXT_FIELD", payload := "hello" }
        1 2).textField.ref ≠ 0 ∧
    (rootReducer (some { ref := 0, textField := { ref := 0, value := "asdf" } })
        { type := "UPDATE_TEXT_FIELD", payload := "hello" }
        1 2).ref ≠ 0 ∧
    featureLookup
      (rootReducer (some { ref := 0, textField := { ref := 0, value := "asdf" } })
        { type := "UPDATE_TEXT_FIELD", payload := "hello" } 1 2) "other" =
      featureLookup { ref := 0, textField := { ref := 0, value := "asdf" } }
        "other" :=
  c8_update_structural_sharing
    { ref := 0, textField := { ref := 0, value := "asdf" } } "hello" 1 2
    "other" (by decide) (by decide) (by decide) (by decide)

/-- C9: the Value Tracker's render spreads the caller's props first and then
binds its own `onChange` and `value`, so the wrapped component always
receives the tracker's bound handler and the tracker's state value — any
caller-supplied `value`/`onChange` is discarded (the result is the same as
if the caller had supplied none) — while all other caller props are
forwarded unchanged. -/
theorem c9_tracker_overrides_caller_props (p : Props)
    (s : RememberValueState) :
    (rememberValueRender p s).onChange = some Handler.trackerHandler ∧
    (rememberValueRender p s).value = some s.value ∧
    rememberValueRender p s =
      rememberValueRender { p with value := none, onChange := none } s ∧
    (rememberValueRender p s).labelText = p.labelText ∧
    (rememberValueRender p s).pre = p.pre ∧
    (rememberValueRender p s).post = p.post :=
  ⟨rfl, rfl, rfl, rfl, rfl, rfl⟩

/-- C10: with an undefined incoming state (container initialisation) and any
action it does not recognise, `textFieldReducer` returns the module-level
`initialState` `\x7b value: 'asdf' \x7d`, so the store-bound text field's `value`
slot initially equals `"asdf"`. -/
theorem c10_initial_state_asdf (a : Action) (fresh : Nat) (own : Props)
    (r : Nat) (h : a.type ≠ "UPDATE_TEXT_FIELD") :
    textFieldReducer none a fresh = initialState ∧
    (textFieldReducer none a fresh).value = "asdf" ∧
    (connectedTextFieldProps own
        { ref := r, textField := textFieldReducer none a fresh }).value =
      some "asdf" := by
  have hred : textFieldReducer none a fresh = initialState := by
    simp [textFieldReducer, h]
  exact ⟨hred, by rw [hred]; rfl,
    by simp [connectedTextFieldProps, mapStateToPropsValue, hred, initialState]⟩

/-- Witness for C10 at the store's own initialisation action
`@@redux/INIT`. -/
theorem c10_initial_state_asdf_witness :
    textFieldReducer none { type := "@@redux/INIT", payload := "" } 3 =
      initialState ∧
    (textFieldReducer none { type := "@@redux/INIT", payload := "" } 3).value =
      "asdf" ∧
    (connectedTextFieldProps emptyProps
        { ref := 7,
          textField :=
            textFieldReducer none { type := "@@redux/INIT", payload := "" } 3
        }).value = some "asdf" :=
  c10_initial_state_asdf { type := "@@redux/INIT", payload := "" } 3
    emptyProps 7 (by decide)

end BlogSpec
